import Mathlib

/-!
Verification of the request-admission and session-security layer of the
sec-x backend (a TypeScript/Express blog API).  Each definition below is a
shallow embedding of one function of the source tree; external I/O (the JWT
library, the Mongo store, the WHATWG URL parser, the filesystem) is passed
in explicitly as data so that every definition is executable.
-/

namespace SecX

/-! ## Alert system — embedding of src/utils/alertSystem.ts -/

/-- CORSAlert.type in the source: 'VIOLATION' | 'SUSPICIOUS' | 'BLOCKED'. -/
inductive AlertType where
  | VIOLATION
  | SUSPICIOUS
  | BLOCKED
deriving DecidableEq, Repr

/-- CORSAlert.severity in the source: 'LOW' | 'MEDIUM' | 'HIGH' | 'CRITICAL'. -/
inductive Severity where
  | LOW
  | MEDIUM
  | HIGH
  | CRITICAL
deriving DecidableEq, Repr

/-- One record of the CORSAlert interface.  The id and timestamp fields
(wall-clock artifacts) are omitted; violationCount is the field stored in
details.violationCount. -/
structure CORSAlert where
  type : AlertType
  severity : Severity
  origin : String
  ip : String
  userAgent : String
  violationCount : Nat
deriving DecidableEq, Repr

/-- Lookup in the violationCounts map; `this.violationCounts.get(key) || 0`. -/
def countsGet (m : List (String × Nat)) (k : String) : Nat :=
  match m.find? (fun p => p.1 == k) with
  | some p => p.2
  | none => 0

/-- Update in the violationCounts map; `this.violationCounts.set(key, v)`. -/
def countsSet (m : List (String × Nat)) (k : String) (v : Nat) : List (String × Nat) :=
  match m with
  | [] => [(k, v)]
  | p :: rest => if p.1 == k then (k, v) :: rest else p :: countsSet rest k v

/-- Mutable state of the CORSAlertSystem class: the alerts array and the
violationCounts map. -/
structure CORSAlertSystem where
  alerts : List CORSAlert
  violationCounts : List (String × Nat)
deriving DecidableEq, Repr

/-- `private readonly maxAlerts = 1000`. -/
def maxAlerts : Nat := 1000

/-- The alertThresholds record of the source.  Note that the severity logic
below reads only the MEDIUM, HIGH and CRITICAL fields; the LOW field is
dead data in the source as well. -/
structure AlertThresholds where
  LOW : Nat
  MEDIUM : Nat
  HIGH : Nat
  CRITICAL : Nat
deriving Repr

def alertThresholds : AlertThresholds := ⟨5, 10, 20, 50⟩

/-- Severity assignment of generateAlert: `let severity = 'LOW'; if
(currentCount >= CRITICAL) ... else if (>= HIGH) ... else if (>= MEDIUM)`.
`currentCount` is the map value BEFORE the increment. -/
def severityFor (currentCount : Nat) : Severity :=
  if currentCount ≥ alertThresholds.CRITICAL then Severity.CRITICAL
  else if currentCount ≥ alertThresholds.HIGH then Severity.HIGH
  else if currentCount ≥ alertThresholds.MEDIUM then Severity.MEDIUM
  else Severity.LOW

/-- Embedding of CORSAlertSystem.generateAlert.  Returns the created alert
together with the new system state, mirroring the source line by line:
key = origin + '-' + ip; read count; write count + 1; severity from the
pre-increment count; userAgent truncated to 200 characters; unshift the
alert; truncate the array to maxAlerts when it exceeds the bound. -/
def generateAlert (sys : CORSAlertSystem) (type : AlertType) (origin ip userAgent : String) :
    CORSAlert × CORSAlertSystem :=
  let key := origin ++ "-" ++ ip
  let currentCount := countsGet sys.violationCounts key
  let counts := countsSet sys.violationCounts key (currentCount + 1)
  let severity := severityFor currentCount
  let alert : CORSAlert :=
    ⟨type, severity, origin, ip, userAgent.take 200, currentCount + 1⟩
  let alerts := alert :: sys.alerts
  let alerts := if alerts.length > maxAlerts then alerts.take maxAlerts else alerts
  (alert, ⟨alerts, counts⟩)

/-- CORSAlertSystem.getRecentAlerts: `this.alerts.slice(0, limit)`. -/
def getRecentAlerts (sys : CORSAlertSystem) (limit : Nat) : List CORSAlert :=
  sys.alerts.take limit

/-- CORSAlertSystem.cleanupOldCounts: `this.violationCounts.clear()`,
run on the hourly interval. -/
def cleanupOldCounts (sys : CORSAlertSystem) : CORSAlertSystem :=
  ⟨sys.alerts, []⟩

/-- The empty initial state of the singleton corsAlertSystem. -/
def emptyAlertSystem : CORSAlertSystem := ⟨[], []⟩

/-- State of the alert system after n VIOLATION events for the same
(origin, ip) key, starting from the fresh singleton state within one
hourly reset window. -/
def violationsAfter (o i ua : String) : Nat → CORSAlertSystem
  | 0 => emptyAlertSystem
  | n + 1 => (generateAlert (violationsAfter o i ua n) .VIOLATION o i ua).2

/-- The alert produced by the n-th violation (n ≥ 1) of one key within one
window. -/
def nthViolationAlert (o i ua : String) (n : Nat) : CORSAlert :=
  (generateAlert (violationsAfter o i ua (n - 1)) .VIOLATION o i ua).1

/-! ## Origin validation — embedding of src/middleware/originValidation.middleware.ts

The WHATWG URL parser used by the source (`new URL(...)`) is a JavaScript
runtime facility, so it is passed in as an explicit function
`parse : String → Option JSURL`; the three hostname pattern checks are
repository code and are embedded concretely below. -/

/-- The two URL components the middleware reads: originUrl.protocol and
originUrl.hostname. -/
structure JSURL where
  protocol : String
  hostname : String
deriving DecidableEq, Repr

/-- JavaScript truthiness of an optional string header: undefined and the
empty string are falsy. -/
def truthy : Option String → Bool
  | none => false
  | some s => !s.isEmpty

/-- JavaScript `a || d` for an optional string a. -/
def jsOr (a : Option String) (d : String) : String :=
  if truthy a then a.getD "" else d

/-- Consume a maximal run of digits. -/
def dropDigitsMany : List Char → List Char
  | [] => []
  | c :: rest => if c.isDigit then dropDigitsMany rest else c :: rest

/-- Consume one-or-more digits (the regex atom \d+); none when the first
character is not a digit. -/
def dropDigits1 : List Char → Option (List Char)
  | [] => none
  | c :: rest => if c.isDigit then some (dropDigitsMany rest) else none

/-- Consume a literal dot followed by one-or-more digits. -/
def dotDigits : List Char → Option (List Char)
  | [] => none
  | c :: rest => if c == '.' then dropDigits1 rest else none

/-- Match of the regex (\d+\.){3}\d+ anchored at the head of the list. -/
def ipAt (cs : List Char) : Bool :=
  match dropDigits1 cs with
  | none => false
  | some r1 =>
    match dotDigits r1 with
    | none => false
    | some r2 =>
      match dotDigits r2 with
      | none => false
      | some r3 => (dotDigits r3).isSome

/-- Unanchored regex search: does the pattern match at some suffix. -/
def anySuffix (p : List Char → Bool) : List Char → Bool
  | [] => p []
  | c :: rest => p (c :: rest) || anySuffix p rest

/-- Nonempty all-digit run reaching the end of the string (\d+$). -/
def digitsToEnd : List Char → Bool
  | [] => false
  | [c] => c.isDigit
  | c :: rest => c.isDigit && digitsToEnd rest

/-- Match of /localhost:\d+$/ anchored at the head of the list. -/
def localhostPortAt (cs : List Char) : Bool :=
  "localhost:".toList.isPrefixOf cs && digitsToEnd (cs.drop 10)

/-- Test of /localhost:\d+$/ against the hostname. -/
def localhostPortTest (s : String) : Bool :=
  anySuffix localhostPortAt s.toList

/-- Test of /(\d+\.){3}\d+/ against the hostname. -/
def ipLiteralTest (s : String) : Bool :=
  anySuffix ipAt s.toList

/-- A word character of the regex class [\w\-\.]. -/
def wordChar (c : Char) : Bool :=
  (c.isAlpha && c.toNat < 128) || c.isDigit || c == '_' || c == '-' || c == '.'

/-- Test of /[^\w\-\.]/ against the hostname. -/
def suspiciousCharsTest (s : String) : Bool :=
  s.toList.any (fun c => !(wordChar c))

/-- The suspiciousPatterns table of the source, applied in order to the
origin hostname; each match contributes its message. -/
def suspiciousPatternList (hostname : String) : List String :=
  (if localhostPortTest hostname then ["Localhost with non-standard port"] else []) ++
  (if ipLiteralTest hostname then ["IP address instead of domain"] else []) ++
  (if suspiciousCharsTest hostname then ["Suspicious characters in domain"] else [])

/-- The referer cross-check block of validateOriginRequest: only runs when
the referer header is truthy; a parse failure contributes the single
warning string of the catch branch. -/
def refererWarnings (parse : String → Option JSURL) (originUrl : JSURL)
    (referer : Option String) : List String :=
  if truthy referer then
    match parse (referer.getD "") with
    | some refererUrl =>
      (if originUrl.hostname == refererUrl.hostname then []
       else ["Origin domain (" ++ originUrl.hostname ++ ") doesn\x27t match referer domain (" ++
          refererUrl.hostname ++ ")"]) ++
      (if originUrl.protocol == refererUrl.protocol then []
       else ["Protocol mismatch: Origin (" ++ originUrl.protocol ++ ") vs Referer (" ++
          refererUrl.protocol ++ ")"])
    | none => ["Invalid referer URL format"]
  else []

/-- All warnings accumulated for a successfully parsed origin: the pattern
warnings (each prefixed as in the source) followed by the referer
cross-check warnings. -/
def originWarnings (parse : String → Option JSURL) (originUrl : JSURL)
    (referer : Option String) : List String :=
  (suspiciousPatternList originUrl.hostname).map
      (fun m => "Suspicious origin pattern: " ++ m) ++
    refererWarnings parse originUrl referer

/-- The inbound headers and request fields the middleware chain reads. -/
structure ValidationRequest where
  origin : Option String
  referer : Option String
  userAgent : Option String
  path : String
  method : String
  ip : Option String
  warmingHeader : Option String
deriving DecidableEq, Repr

/-- The OriginValidationResult interface (details.origin/referer/userAgent
are copies of the request fields and are omitted). -/
structure OriginValidationResult where
  isValid : Bool
  warnings : List String
  suspiciousPatterns : List String
deriving DecidableEq, Repr

/-- The early-exit guard of validateOriginRequest: no (truthy) origin
header, an explicit warming ping, or the health-check path. -/
def validationSkipped (req : ValidationRequest) : Bool :=
  !(truthy req.origin) || (req.warmingHeader == some "true") || (req.path == "/api/health")

/-- Outcome of the validateOriginRequest middleware: `stored` is the value
attached to req.originValidation (none when the middleware returned early
or when URL parsing threw, since the assignment sits at the end of the try
block); `computedWarnings` is the warnings array of the local result,
including the catch-branch warning that is never attached; `sys` is the
alert-system state after the middleware (a SUSPICIOUS alert is generated
exactly when a stored result has a non-empty warning list). -/
structure ValidationStep where
  stored : Option OriginValidationResult
  computedWarnings : List String
  sys : CORSAlertSystem
deriving Repr

/-- Embedding of validateOriginRequest. -/
def validateOriginRequest (parse : String → Option JSURL) (req : ValidationRequest)
    (sys : CORSAlertSystem) : ValidationStep :=
  if validationSkipped req then ⟨none, [], sys⟩
  else
    match parse (req.origin.getD "") with
    | none => ⟨none, ["Invalid origin URL format"], sys⟩
    | some originUrl =>
      let warnings := originWarnings parse originUrl req.referer
      ⟨some ⟨true, warnings, suspiciousPatternList originUrl.hostname⟩, warnings,
        if warnings.length > 0 then
          (generateAlert sys .SUSPICIOUS (jsOr req.origin "unknown") (jsOr req.ip "unknown")
            (jsOr req.userAgent "unknown")).2
        else sys⟩

/-- Terminal outcome of the blockSuspiciousOrigins middleware. -/
inductive BlockOutcome where
  | rejected (status : Nat) (errorCode : String) (message : String)
  | passed
deriving DecidableEq, Repr

/-- Embedding of blockSuspiciousOrigins(maxWarnings = 3): blocks with a 403
SUSPICIOUS_ORIGIN envelope and one BLOCKED alert when a stored validation
result carries at least maxWarnings warnings; it reads nothing but the
stored result and the request headers (in particular it never consults the
allow-list). -/
def blockSuspiciousOrigins (maxWarnings : Nat) (validation : Option OriginValidationResult)
    (req : ValidationRequest) (sys : CORSAlertSystem) : BlockOutcome × CORSAlertSystem :=
  match validation with
  | some v =>
    if v.warnings.length ≥ maxWarnings then
      (BlockOutcome.rejected 403 "SUSPICIOUS_ORIGIN"
          "Request blocked due to suspicious origin patterns",
        (generateAlert sys .BLOCKED (jsOr req.origin "unknown") (jsOr req.ip "unknown")
          (jsOr req.userAgent "unknown")).2)
    else (BlockOutcome.passed, sys)
  | none => (BlockOutcome.passed, sys)

/-! ## Adaptive rate limiting — embedding of the rateLimiter module -/

/-- The three limiter tiers smartCORSLimiter can dispatch to:
optionsLimiter (20 requests / 5 min), suspiciousOriginLimiter
(3 requests / 15 min), generalLimiter (100 requests / 15 min). -/
inductive RateTier where
  | optionsTier
  | suspiciousTier
  | generalTier
deriving DecidableEq, Repr

/-- Tier classification of smartCORSLimiter: OPTIONS requests go to the
preflight limiter; otherwise a request whose req.originValidation carries a
non-empty warnings list goes to the suspicious limiter
(`req.originValidation?.warnings?.length > 0`, false when the field is
undefined); every other request goes to the general limiter. -/
def hasOriginWarnings (originValidation : Option OriginValidationResult) : Bool :=
  match originValidation with
  | some v => decide (v.warnings.length > 0)
  | none => false

def smartCORSLimiter (method : String) (originValidation : Option OriginValidationResult) :
    RateTier :=
  if method == "OPTIONS" then RateTier.optionsTier
  else if hasOriginWarnings originValidation then RateTier.suspiciousTier
  else RateTier.generalTier

/-- The tier the wired pipeline applies: in src/index.ts the
smartCORSLimiter middleware is installed (app.use at line 55) before
validateOriginRequest (line 77), so req.originValidation is still
undefined whenever the limiter runs. -/
def pipelineTierAtLimiter (method : String) : RateTier :=
  smartCORSLimiter method none

/-- A concrete URL-parser table for the sample request below, standing in
for the WHATWG parser on exactly the two strings the sample uses. -/
def sampleParse : String → Option JSURL :=
  fun s =>
    if s == "http://1.2.3.4" then some ⟨"http:", "1.2.3.4"⟩
    else if s == "https://other.example" then some ⟨"https:", "other.example"⟩
    else none

/-- A GET request whose origin is a bare IPv4 literal and whose referer
disagrees with the origin in both hostname and scheme: origin validation
yields three warnings. -/
def sampleReq : ValidationRequest :=
  ⟨some "http://1.2.3.4", some "https://other.example", some "UA", "/api/blogs", "GET",
    some "9.9.9.9", none⟩

/-! ## CORS allow-list — embedding of src/config/cors.config.ts and
src/middleware/corsError.middleware.ts -/

/-- The urls of the static allowedOrigins table; the first entry is
`process.env.FRONTEND_URL || 'http://localhost:3000'`, modelled with the
environment variable passed in as an optional string. -/
def allowedOriginUrls (frontendUrl : Option String) : List String :=
  [jsOr frontendUrl "http://localhost:3000", "https://localhost:3000",
    "https://sec-x.netlify.app", "https://sec-x.vercel.app"]

/-- Result handed to the cors-package callback by corsOriginValidator:
either callback(null, true) or callback(corsError, false) with the error
name and message built in the source. -/
inductive CorsCallbackResult where
  | allow
  | err (name : String) (message : String)
deriving DecidableEq, Repr

/-- Embedding of corsOriginValidator: no (truthy) Origin header is allowed
through; otherwise the origin is allowed iff some allowedOrigins entry has
exactly this url, and every other origin yields a CORSError. -/
def corsOriginValidator (frontendUrl : Option String) (origin : Option String) :
    CorsCallbackResult :=
  if !(truthy origin) then CorsCallbackResult.allow
  else if (allowedOriginUrls frontendUrl).any (fun u => u == origin.getD "") then
    CorsCallbackResult.allow
  else
    CorsCallbackResult.err "CORSError"
      ("CORS policy violation: Origin \x27" ++ origin.getD "" ++ "\x27 is not allowed")

/-- The JSON envelope corsErrorHandler sends for a CORS error (the
environment-dependent details block is omitted). -/
structure CorsErrorResponse where
  status : Nat
  errorCode : String
  message : String
deriving DecidableEq, Repr

/-- `err.message.includes('CORS policy violation')`. -/
def messageMentionsCORSViolation (msg : String) : Bool :=
  decide ((msg.splitOn "CORS policy violation").length > 1)

/-- Embedding of corsErrorHandler.  The source logs the violation and
responds with the 403 envelope; it contains no call into the alert system,
so the alert state is returned unchanged; a non-CORS error is passed on
(response none). -/
def corsErrorHandler (errName errMessage : String) (sys : CORSAlertSystem) :
    Option CorsErrorResponse × CORSAlertSystem :=
  if errName == "CORSError" || messageMentionsCORSViolation errMessage then
    (some ⟨403, "CORS_VIOLATION", "Cross-Origin Request Blocked"⟩, sys)
  else (none, sys)

/-- Number of VIOLATION alerts held by the alert system. -/
def countViolationAlerts (sys : CORSAlertSystem) : Nat :=
  (sys.alerts.filter (fun a => a.type == AlertType.VIOLATION)).length

/-! ## Sessions and authentication — embedding of
src/services/sessionService.ts, the jwt utils module with
verifyTokenWithBlacklist, and src/middleware/auth.middleware.ts -/

/-- A document of the TokenBlacklist collection. -/
structure TokenBlacklistEntry where
  token : String
  userId : String
  expiresAt : Nat
deriving DecidableEq, Repr

/-- Result of one round-trip to the persistent store: the value, or a
storage error (the exception caught by the service). -/
inductive StoreLookup (α : Type) where
  | ok (value : α)
  | storageError (message : String)
deriving DecidableEq, Repr

/-- Embedding of SessionService.isTokenBlacklisted: on a successful lookup
`return !!blacklistedToken`; the catch branch logs and returns false.  The
function is total — the try/catch guarantees the caller never sees an
exception. -/
def isTokenBlacklisted (lookup : StoreLookup (Option TokenBlacklistEntry)) : Bool :=
  match lookup with
  | .ok found => found.isSome
  | .storageError _ => false

/-- The claims of a decoded token that this layer reads. -/
structure JwtPayload where
  id : String
  exp : Nat
deriving DecidableEq, Repr

/-- Result of jwt.verify on a token: the decoded payload, or the thrown
error message (for example jwt expired or invalid signature — the
jsonwebtoken library never throws the message reserved below for the
denylist). -/
inductive JwtVerifyResult where
  | ok (payload : JwtPayload)
  | verifyError (message : String)
deriving DecidableEq, Repr

/-- Embedding of verifyTokenWithBlacklist: verifyToken runs first, so a
signature or expiry failure propagates before the denylist is consulted;
a blacklisted token raises the dedicated invalidated-token error. -/
def verifyTokenWithBlacklist (verify : JwtVerifyResult) (blacklisted : Bool) :
    Except String JwtPayload :=
  match verify with
  | .verifyError m => Except.error m
  | .ok p =>
    if blacklisted then Except.error "Token has been invalidated" else Except.ok p

/-- The catch branch of the protect middleware: the invalidated-token error
becomes the session-terminated message, every other failure the generic
one. -/
def protectRejectMessage (errMessage : String) : String :=
  if errMessage == "Token has been invalidated" then "Session has been terminated"
  else "Not authorized, token failed"

/-- Unauthorized message produced by protect for a verification outcome
(none when verification succeeded and the request proceeds). -/
def protectAuthMessage : Except String JwtPayload → Option String
  | Except.error e => some (protectRejectMessage e)
  | Except.ok _ => none

/-- JavaScript String.prototype.startsWith over the character sequences. -/
def strBeginsWith (s pre : String) : Bool :=
  pre.toList.isPrefixOf s.toList

/-- JavaScript `value.split(' ')[1]`. -/
def splitSpaceSecond (s : String) : Option String :=
  (s.splitOn " ").get? 1

/-- Token extraction of the protect middleware: PRIORITY 1 the httpOnly
cookie (when the cookies object carries a truthy token), PRIORITY 2 the
Authorization header when it starts with Bearer, taking `split(' ')[1]`. -/
def protectExtractToken (cookieToken authHeader : Option String) : Option String :=
  if truthy cookieToken then cookieToken
  else if truthy authHeader && strBeginsWith (authHeader.getD "") "Bearer" then
    splitSpaceSecond (authHeader.getD "")
  else none

/-- Token extraction of the optionalAuth middleware: the Authorization
header is examined first, the cookie only in the else branch. -/
def optionalAuthExtractToken (cookieToken authHeader : Option String) : Option String :=
  if truthy authHeader && strBeginsWith (authHeader.getD "") "Bearer" then
    splitSpaceSecond (authHeader.getD "")
  else if truthy cookieToken then cookieToken
  else none

/-- `TokenBlacklist.findOne({ token })` over the collection contents. -/
def findBlacklistEntry (store : List TokenBlacklistEntry) (token : String) :
    Option TokenBlacklistEntry :=
  store.find? (fun e => e.token == token)

/-- Embedding of SessionService.blacklistToken: verifyToken(token) runs
inside the try block, so a token failing verification never reaches
TokenBlacklist.create; the catch branch logs and returns normally.  On
success an entry with the token expiry (`new Date(decoded.exp * 1000)`)
is inserted. -/
def blacklistToken (verify : JwtVerifyResult) (store : List TokenBlacklistEntry)
    (token userId : String) : List TokenBlacklistEntry :=
  match verify with
  | .ok p => store ++ [⟨token, userId, p.exp * 1000⟩]
  | .verifyError _ => store

/-! ## Origin registry — embedding of the OriginManagementService module -/

/-- The ManagedOrigin interface (addedAt/lastUsed as abstract instants). -/
structure ManagedOrigin where
  id : String
  url : String
  environment : String
  description : String
  addedBy : String
  addedAt : Nat
  lastUsed : Option Nat
  usageCount : Nat
  isActive : Bool
  tags : List String
deriving DecidableEq, Repr

/-- Combined state: the in-memory this.origins array and the contents of
the durable managed-origins.json file (none when the file is absent). -/
structure OriginStore where
  origins : List ManagedOrigin
  file : Option (List ManagedOrigin)
deriving DecidableEq, Repr

/-- Embedding of saveOrigins: writes the current in-memory array to the
file; the catch branch logs the failure and swallows it, leaving the file
as it was.  Failure injection is the writeFails flag. -/
def saveOrigins (writeFails : Bool) (s : OriginStore) : OriginStore :=
  if writeFails then s else ⟨s.origins, some s.origins⟩

/-- Embedding of addOrigin: `this.origins.push(newOrigin)` mutates memory
first, `await this.saveOrigins()` runs second, and the new origin is
returned unconditionally.  The id/addedAt generation is folded into the
given record. -/
def addOrigin (writeFails : Bool) (s : OriginStore) (newOrigin : ManagedOrigin) :
    ManagedOrigin × OriginStore :=
  let s1 : OriginStore := ⟨s.origins ++ [newOrigin], s.file⟩
  (newOrigin, saveOrigins writeFails s1)

/-- Embedding of removeOrigin: findIndex, early false when absent,
otherwise splice (memory first) then saveOrigins, returning true. -/
def removeOrigin (writeFails : Bool) (s : OriginStore) (originId : String) :
    Bool × OriginStore :=
  match s.origins.findIdx? (fun o => o.id == originId) with
  | none => (false, s)
  | some i => (true, saveOrigins writeFails ⟨s.origins.eraseIdx i, s.file⟩)

/-- In-place mutation of the first element with the given id
(`Object.assign(origin, updates)` on the object found by find). -/
def replaceFirstById (l : List ManagedOrigin) (originId : String)
    (updated : ManagedOrigin) : List ManagedOrigin :=
  match l with
  | [] => []
  | o :: rest =>
    if o.id == originId then updated :: rest
    else o :: replaceFirstById rest originId updated

/-- Embedding of updateOrigin: find, early null when absent, otherwise
Object.assign on the found object (memory first) then saveOrigins,
returning the updated origin.  The Partial update object is modelled as a
field patch function. -/
def updateOrigin (writeFails : Bool) (s : OriginStore) (originId : String)
    (patch : ManagedOrigin → ManagedOrigin) : Option ManagedOrigin × OriginStore :=
  match s.origins.find? (fun o => o.id == originId) with
  | none => (none, s)
  | some o =>
    (some (patch o), saveOrigins writeFails ⟨replaceFirstById s.origins originId (patch o), s.file⟩)

/-- A sample registry entry used by concrete evaluations below. -/
def sampleOrigin : ManagedOrigin :=
  ⟨"origin_1", "https://app.example.com", "production", "frontend", "admin", 0, none, 0, true, []⟩

/-! ## Theorems -/

theorem countsGet_countsSet_self (m : List (String × Nat)) (k : String) (v : Nat) :
    countsGet (countsSet m k v) k = v := by
  induction m with
  | nil => simp [countsGet, countsSet]
  | cons p rest ih =>
    by_cases h : (p.1 == k) = true
    · simp [countsGet, countsSet, h]
    · simp only [countsSet, h, if_false, Bool.false_eq_true]
      simp only [countsGet, List.find?]
      rw [Bool.not_eq_true] at h
      rw [h]
      exact ih

theorem generateAlert_fst (sys : CORSAlertSystem) (t : AlertType) (o i ua : String) :
    (generateAlert sys t o i ua).1 =
      ⟨t, severityFor (countsGet sys.violationCounts (o ++ "-" ++ i)), o, i,
        ua.take 200, countsGet sys.violationCounts (o ++ "-" ++ i) + 1⟩ := rfl

theorem generateAlert_head (sys : CORSAlertSystem) (t : AlertType) (o i ua : String) :
    (generateAlert sys t o i ua).2.alerts.head? = some (generateAlert sys t o i ua).1 := by
  unfold generateAlert
  dsimp only
  split
  · rw [show maxAlerts = 999 + 1 from rfl, List.take_succ_cons]
    rfl
  · rfl

theorem generateAlert_length (sys : CORSAlertSystem) (t : AlertType) (o i ua : String) :
    (generateAlert sys t o i ua).2.alerts.length = min (sys.alerts.length + 1) maxAlerts := by
  unfold generateAlert
  dsimp only
  split
  · rename_i h
    rw [List.length_take]
    simp only [List.length_cons] at h ⊢
    omega
  · rename_i h
    simp only [List.length_cons] at h ⊢
    omega

/-- Claim C9: after every insertion the alert buffer holds at most 1,000
alerts, the freshly generated alert sits at the front (newest first), and an
insertion into a full buffer evicts exactly the oldest (last) alert. -/
theorem alerts_ring_buffer_bounded_newest_first (sys : CORSAlertSystem) (t : AlertType)
    (o i ua : String) (h : sys.alerts.length ≤ maxAlerts) :
    (generateAlert sys t o i ua).2.alerts.length ≤ maxAlerts ∧
    (generateAlert sys t o i ua).2.alerts.head? = some (generateAlert sys t o i ua).1 ∧
    (sys.alerts.length = maxAlerts →
      (generateAlert sys t o i ua).2.alerts =
        (generateAlert sys t o i ua).1 :: sys.alerts.dropLast) := by
  refine ⟨?_, generateAlert_head sys t o i ua, ?_⟩
  · rw [generateAlert_length]
    omega
  · intro hfull
    unfold generateAlert
    dsimp only
    rw [if_pos (by simp only [List.length_cons, hfull, maxAlerts]; omega)]
    rw [show maxAlerts = 999 + 1 from rfl, List.take_succ_cons]
    congr 1
    rw [List.dropLast_eq_take, hfull]
    rfl

theorem alerts_ring_buffer_bounded_newest_first_witness :
    emptyAlertSystem.alerts.length ≤ maxAlerts ∧
    ((generateAlert emptyAlertSystem .VIOLATION "https://evil.test" "1.2.3.4" "ua").2.alerts.length ≤
        maxAlerts ∧
      (generateAlert emptyAlertSystem .VIOLATION "https://evil.test" "1.2.3.4" "ua").2.alerts.head? =
        some (generateAlert emptyAlertSystem .VIOLATION "https://evil.test" "1.2.3.4" "ua").1 ∧
      (emptyAlertSystem.alerts.length = maxAlerts →
        (generateAlert emptyAlertSystem .VIOLATION "https://evil.test" "1.2.3.4" "ua").2.alerts =
          (generateAlert emptyAlertSystem .VIOLATION "https://evil.test" "1.2.3.4" "ua").1 ::
            emptyAlertSystem.alerts.dropLast)) :=
  ⟨by decide,
    alerts_ring_buffer_bounded_newest_first emptyAlertSystem .VIOLATION "https://evil.test"
      "1.2.3.4" "ua" (by decide)⟩

theorem violationsAfter_count (o i ua : String) (n : Nat) :
    countsGet (violationsAfter o i ua n).violationCounts (o ++ "-" ++ i) = n := by
  induction n with
  | zero => rfl
  | succ n ih =>
    show countsGet
        (generateAlert (violationsAfter o i ua n) .VIOLATION o i ua).2.violationCounts
        (o ++ "-" ++ i) = n + 1
    unfold generateAlert
    dsimp only
    rw [countsGet_countsSet_self, ih]

/-- Claim C5 as stated is false: the 6th violation of one key has 6
accumulated violations in the window (≥ 5 and < 10), so the claim assigns
MEDIUM, but the code assigns LOW (the source compares the pre-increment
count against thresholds 10/20/50 and never consults the LOW: 5 entry). -/
theorem severity_thresholds_counterexample :
    (nthViolationAlert "https://evil.test" "1.2.3.4" "ua" 6).severity = Severity.LOW ∧
    Severity.LOW ≠ Severity.MEDIUM := by
  constructor
  · decide
  · decide

/-- Claim C5 amended: the severity of the n-th violation of one
(origin, ip) key within a window follows the pre-increment count against
thresholds MEDIUM 10, HIGH 20, CRITICAL 50: LOW for n ≤ 10, MEDIUM for
11 ≤ n ≤ 20, HIGH for 21 ≤ n ≤ 50, CRITICAL for n ≥ 51; in particular the
51st violation and every later one in the window is CRITICAL. -/
theorem severity_thresholds_amended (o i ua : String) (n : Nat) (h : 1 ≤ n) :
    (nthViolationAlert o i ua n).severity =
      (if 51 ≤ n then Severity.CRITICAL
       else if 21 ≤ n then Severity.HIGH
       else if 11 ≤ n then Severity.MEDIUM
       else Severity.LOW) := by
  unfold nthViolationAlert
  rw [generateAlert_fst]
  dsimp only
  rw [violationsAfter_count]
  unfold severityFor alertThresholds
  dsimp only
  split_ifs <;> first | rfl | (exfalso; omega)

theorem severity_thresholds_amended_witness :
    1 ≤ 51 ∧
    (nthViolationAlert "https://evil.test" "1.2.3.4" "ua" 51).severity =
      (if 51 ≤ 51 then Severity.CRITICAL
       else if 21 ≤ 51 then Severity.HIGH
       else if 11 ≤ 51 then Severity.MEDIUM
       else Severity.LOW) :=
  ⟨by decide, severity_thresholds_amended "https://evil.test" "1.2.3.4" "ua" 51 (by decide)⟩

/-- Claim C8: whenever origin validation accumulates at least the
suspicion threshold of 3 warnings for a request, the pipeline stage
blockSuspiciousOrigins (wired directly after validateOriginRequest with
its default threshold 3) rejects the request with a 403 SUSPICIOUS_ORIGIN
envelope and records one BLOCKED alert carrying the request origin; the
stage never reads the allow-list, so membership in it is irrelevant. -/
theorem suspicious_threshold_rejects (parse : String → Option JSURL) (req : ValidationRequest)
    (sys : CORSAlertSystem)
    (h : 3 ≤ (validateOriginRequest parse req sys).computedWarnings.length) :
    (blockSuspiciousOrigins 3 (validateOriginRequest parse req sys).stored req
        (validateOriginRequest parse req sys).sys).1 =
      BlockOutcome.rejected 403 "SUSPICIOUS_ORIGIN"
        "Request blocked due to suspicious origin patterns" ∧
    (blockSuspiciousOrigins 3 (validateOriginRequest parse req sys).stored req
        (validateOriginRequest parse req sys).sys).2.alerts.head?.map CORSAlert.type =
      some AlertType.BLOCKED ∧
    (blockSuspiciousOrigins 3 (validateOriginRequest parse req sys).stored req
        (validateOriginRequest parse req sys).sys).2.alerts.head?.map CORSAlert.origin =
      some (jsOr req.origin "unknown") ∧
    (blockSuspiciousOrigins 3 (validateOriginRequest parse req sys).stored req
        (validateOriginRequest parse req sys).sys).2.alerts.length =
      min ((validateOriginRequest parse req sys).sys.alerts.length + 1) maxAlerts := by
  unfold validateOriginRequest at h ⊢
  by_cases hs : validationSkipped req = true
  · rw [if_pos hs] at h
    simp at h
  · rw [if_neg hs] at h ⊢
    cases hp : parse (req.origin.getD "") with
    | none =>
      rw [hp] at h
      simp at h
    | some u =>
      rw [hp] at h
      dsimp only at h ⊢
      have hcond : (originWarnings parse u req.referer).length ≥ 3 := h
      unfold blockSuspiciousOrigins
      dsimp only
      rw [if_pos hcond]
      refine ⟨rfl, ?_, ?_, ?_⟩
      · rw [generateAlert_head]
        rfl
      · rw [generateAlert_head]
        rfl
      · rw [generateAlert_length]

theorem suspicious_threshold_rejects_witness :
    3 ≤ (validateOriginRequest sampleParse sampleReq emptyAlertSystem).computedWarnings.length ∧
    ((blockSuspiciousOrigins 3 (validateOriginRequest sampleParse sampleReq emptyAlertSystem).stored
        sampleReq (validateOriginRequest sampleParse sampleReq emptyAlertSystem).sys).1 =
      BlockOutcome.rejected 403 "SUSPICIOUS_ORIGIN"
        "Request blocked due to suspicious origin patterns" ∧
    (blockSuspiciousOrigins 3 (validateOriginRequest sampleParse sampleReq emptyAlertSystem).stored
        sampleReq
        (validateOriginRequest sampleParse sampleReq emptyAlertSystem).sys).2.alerts.head?.map
        CORSAlert.type = some AlertType.BLOCKED ∧
    (blockSuspiciousOrigins 3 (validateOriginRequest sampleParse sampleReq emptyAlertSystem).stored
        sampleReq
        (validateOriginRequest sampleParse sampleReq emptyAlertSystem).sys).2.alerts.head?.map
        CORSAlert.origin = some (jsOr sampleReq.origin "unknown") ∧
    (blockSuspiciousOrigins 3 (validateOriginRequest sampleParse sampleReq emptyAlertSystem).stored
        sampleReq
        (validateOriginRequest sampleParse sampleReq emptyAlertSystem).sys).2.alerts.length =
      min ((validateOriginRequest sampleParse sampleReq emptyAlertSystem).sys.alerts.length + 1)
        maxAlerts) :=
  ⟨by decide, suspicious_threshold_rejects sampleParse sampleReq emptyAlertSystem (by decide)⟩

/-- Claim C4 fails on the wiring: for the sample GET request origin
validation computes a non-empty warning list, and smartCORSLimiter given
that validation result would pick the suspicious tier; but because the
limiter middleware runs before validateOriginRequest in src/index.ts, the
pipeline classifies with an undefined req.originValidation and applies the
general tier to every non-OPTIONS request — the suspicious tier is
unreachable. -/
theorem adaptive_tier_wiring_bug :
    (validateOriginRequest sampleParse sampleReq emptyAlertSystem).computedWarnings ≠ [] ∧
    smartCORSLimiter "GET" (validateOriginRequest sampleParse sampleReq emptyAlertSystem).stored =
      RateTier.suspiciousTier ∧
    pipelineTierAtLimiter "GET" = RateTier.generalTier ∧
    RateTier.generalTier ≠ RateTier.suspiciousTier ∧
    (∀ m : String, pipelineTierAtLimiter m ≠ RateTier.suspiciousTier) := by
  refine ⟨by decide, by decide, by decide, by decide, ?_⟩
  intro m
  unfold pipelineTierAtLimiter smartCORSLimiter
  by_cases hm : (m == "OPTIONS") = true
  · rw [if_pos hm]
    decide
  · rw [if_neg hm]
    simp
    rfl

/-- Claim C1 fails on the alert half: for the syntactically valid,
unregistered origin https://evil.test the validator does produce the
rejection (allowed = false, and the error handler answers 403
CORS_VIOLATION), but corsErrorHandler leaves the alert state untouched in
every case — no VIOLATION alert is ever generated anywhere in the code —
so the number of VIOLATION alerts recorded for the request is 0, not
exactly one. -/
theorem cors_rejection_records_no_violation_alert :
    (∀ n m : String, ∀ sys : CORSAlertSystem, (corsErrorHandler n m sys).2 = sys) ∧
    corsOriginValidator none (some "https://evil.test") =
      CorsCallbackResult.err "CORSError"
        "CORS policy violation: Origin \x27https://evil.test\x27 is not allowed" ∧
    (corsErrorHandler "CORSError"
        "CORS policy violation: Origin \x27https://evil.test\x27 is not allowed"
        emptyAlertSystem).1 =
      some ⟨403, "CORS_VIOLATION", "Cross-Origin Request Blocked"⟩ ∧
    countViolationAlerts (corsErrorHandler "CORSError"
        "CORS policy violation: Origin \x27https://evil.test\x27 is not allowed"
        emptyAlertSystem).2 = 0 ∧
    (0 : Nat) ≠ 1 := by
  refine ⟨?_, by decide, ?_, ?_, by decide⟩
  · intro n m sys
    unfold corsErrorHandler
    split <;> rfl
  · rfl
  · rfl

/-- Claim C2: a storage error during the denylist lookup makes
isTokenBlacklisted return false — the token is treated as not revoked,
and since the whole body sits in a try/catch returning a boolean, no
exception reaches the caller (the embedding is a total function). -/
theorem revocation_check_fails_open (m : String) :
    isTokenBlacklisted (StoreLookup.storageError m) = false := rfl

/-- Claim C3 fails for the mandatory variant: with both a session cookie
token and a bearer Authorization header present, protect extracts the
cookie token, not the header token (the source marks the cookie PRIORITY 1
and the header a fallback). -/
theorem auth_header_precedence_counterexample :
    protectExtractToken (some "cookieTok") (some "Bearer headerTok") = some "cookieTok" ∧
    "cookieTok" ≠ "headerTok" := by decide

/-- Claim C3 amended: when both carriers are present, protect (the
mandatory gate) uses the cookie token — cookie extraction takes precedence
there — while optionalAuth uses the Authorization-header token
(split(' ')[1] of the header value). -/
theorem auth_header_precedence_amended (c h : String) (hc : c.isEmpty = false)
    (hh : strBeginsWith h "Bearer" = true) (hne : h.isEmpty = false) :
    protectExtractToken (some c) (some h) = some c ∧
    optionalAuthExtractToken (some c) (some h) = splitSpaceSecond h := by
  constructor
  · simp [protectExtractToken, truthy, hc]
  · simp [optionalAuthExtractToken, truthy, hne, hh]

theorem auth_header_precedence_amended_witness :
    ("cookieTok".isEmpty = false) ∧ (strBeginsWith "Bearer headerTok" "Bearer" = true) ∧
    ("Bearer headerTok".isEmpty = false) ∧
    (protectExtractToken (some "cookieTok") (some "Bearer headerTok") = some "cookieTok" ∧
      optionalAuthExtractToken (some "cookieTok") (some "Bearer headerTok") =
        splitSpaceSecond "Bearer headerTok") :=
  ⟨by decide, by decide, by decide,
    auth_header_precedence_amended "cookieTok" "Bearer headerTok" (by decide) (by decide)
      (by decide)⟩

/-- Claim C7: a token that verifies but sits on the denylist is rejected
with the session-terminated message, while a token failing signature or
expiry verification (any jsonwebtoken error message, which is never the
reserved invalidated-token string) gets the generic failure message, and
the two messages differ. -/
theorem revoked_session_message_distinct (p : JwtPayload) (b : Bool) (m : String)
    (hm : (m == "Token has been invalidated") = false) :
    protectAuthMessage (verifyTokenWithBlacklist (JwtVerifyResult.ok p) true) =
      some "Session has been terminated" ∧
    protectAuthMessage (verifyTokenWithBlacklist (JwtVerifyResult.verifyError m) b) =
      some "Not authorized, token failed" ∧
    "Session has been terminated" ≠ "Not authorized, token failed" := by
  refine ⟨rfl, ?_, by decide⟩
  simp [protectAuthMessage, verifyTokenWithBlacklist, protectRejectMessage, hm]

theorem revoked_session_message_distinct_witness :
    (("jwt expired" == "Token has been invalidated") = false) ∧
    (protectAuthMessage (verifyTokenWithBlacklist (JwtVerifyResult.ok ⟨"u1", 1000⟩) true) =
        some "Session has been terminated" ∧
      protectAuthMessage
          (verifyTokenWithBlacklist (JwtVerifyResult.verifyError "jwt expired") false) =
        some "Not authorized, token failed" ∧
      "Session has been terminated" ≠ "Not authorized, token failed") :=
  ⟨by decide, revoked_session_message_distinct ⟨"u1", 1000⟩ false "jwt expired" (by decide)⟩

/-- Claim C10: when verifyToken fails on a token, blacklistToken leaves the
denylist untouched and raises nothing (the embedding returns the unchanged
store), and a subsequent healthy-store revocation check for that token
still answers false provided the token was not already denylisted. -/
theorem blacklist_noop_on_invalid_token (store : List TokenBlacklistEntry)
    (token userId m : String) (hnew : findBlacklistEntry store token = none) :
    blacklistToken (JwtVerifyResult.verifyError m) store token userId = store ∧
    isTokenBlacklisted (StoreLookup.ok
        (findBlacklistEntry (blacklistToken (JwtVerifyResult.verifyError m) store token userId)
          token)) = false := by
  refine ⟨rfl, ?_⟩
  show isTokenBlacklisted (StoreLookup.ok (findBlacklistEntry store token)) = false
  rw [hnew]
  rfl

theorem blacklist_noop_on_invalid_token_witness :
    (findBlacklistEntry [] "tok1" = none) ∧
    (blacklistToken (JwtVerifyResult.verifyError "jwt malformed") [] "tok1" "u1" = [] ∧
      isTokenBlacklisted (StoreLookup.ok
          (findBlacklistEntry
            (blacklistToken (JwtVerifyResult.verifyError "jwt malformed") [] "tok1" "u1")
            "tok1")) = false) :=
  ⟨by decide, blacklist_noop_on_invalid_token [] "tok1" "u1" "jwt malformed" (by decide)⟩

/-- Claim C6 fails: addOrigin pushes the new origin into the in-memory
array before the durable write, and saveOrigins swallows a write failure,
so with a failing write the operation still returns the new origin
(success) while the durable file does not contain it — the in-memory list
is mutated while the durable store never reflects the mutation. -/
theorem registry_write_ordering_counterexample :
    (addOrigin true ⟨[], some []⟩ sampleOrigin).1 = sampleOrigin ∧
    (addOrigin true ⟨[], some []⟩ sampleOrigin).2.origins = [sampleOrigin] ∧
    (addOrigin true ⟨[], some []⟩ sampleOrigin).2.file = some [] ∧
    ([] : List ManagedOrigin) ≠ [sampleOrigin] := by decide

/-- Claim C6 amended: every mutating registry operation commits the
mutation to the in-memory list first and then attempts the durable write;
the returned value reports success regardless of the write outcome, and
the durable file reflects the mutation exactly when the write succeeded
(on failure it is left as it was, diverging from memory). -/
theorem registry_write_ordering_amended (writeFails : Bool) (s : OriginStore)
    (a o : ManagedOrigin) (oid : String) (i : Nat) (patch : ManagedOrigin → ManagedOrigin)
    (hri : s.origins.findIdx? (fun x => x.id == oid) = some i)
    (hfo : s.origins.find? (fun x => x.id == oid) = some o) :
    ((addOrigin writeFails s a).1 = a ∧
      (addOrigin writeFails s a).2.origins = s.origins ++ [a] ∧
      (addOrigin writeFails s a).2.file =
        (if writeFails then s.file else some (s.origins ++ [a]))) ∧
    ((removeOrigin writeFails s oid).1 = true ∧
      (removeOrigin writeFails s oid).2.origins = s.origins.eraseIdx i ∧
      (removeOrigin writeFails s oid).2.file =
        (if writeFails then s.file else some (s.origins.eraseIdx i))) ∧
    ((updateOrigin writeFails s oid patch).1 = some (patch o) ∧
      (updateOrigin writeFails s oid patch).2.origins =
        replaceFirstById s.origins oid (patch o) ∧
      (updateOrigin writeFails s oid patch).2.file =
        (if writeFails then s.file else some (replaceFirstById s.origins oid (patch o)))) := by
  refine ⟨?_, ?_, ?_⟩
  · unfold addOrigin saveOrigins
    cases writeFails <;> simp
  · unfold removeOrigin
    rw [hri]
    unfold saveOrigins
    cases writeFails <;> simp
  · unfold updateOrigin
    rw [hfo]
    unfold saveOrigins
    cases writeFails <;> simp

theorem registry_write_ordering_amended_witness :
    ([sampleOrigin].findIdx? (fun x => x.id == "origin_1") = some 0) ∧
    ([sampleOrigin].find? (fun x => x.id == "origin_1") = some sampleOrigin) ∧
    (((addOrigin true ⟨[sampleOrigin], none⟩ sampleOrigin).1 = sampleOrigin ∧
      (addOrigin true ⟨[sampleOrigin], none⟩ sampleOrigin).2.origins =
        [sampleOrigin] ++ [sampleOrigin] ∧
      (addOrigin true ⟨[sampleOrigin], none⟩ sampleOrigin).2.file =
        (if true then (none : Option (List ManagedOrigin))
         else some ([sampleOrigin] ++ [sampleOrigin]))) ∧
    ((removeOrigin true ⟨[sampleOrigin], none⟩ "origin_1").1 = true ∧
      (removeOrigin true ⟨[sampleOrigin], none⟩ "origin_1").2.origins =
        [sampleOrigin].eraseIdx 0 ∧
      (removeOrigin true ⟨[sampleOrigin], none⟩ "origin_1").2.file =
        (if true then (none : Option (List ManagedOrigin))
         else some ([sampleOrigin].eraseIdx 0))) ∧
    ((updateOrigin true ⟨[sampleOrigin], none⟩ "origin_1" (fun x => x)).1 =
        some ((fun x => x) sampleOrigin) ∧
      (updateOrigin true ⟨[sampleOrigin], none⟩ "origin_1" (fun x => x)).2.origins =
        replaceFirstById [sampleOrigin] "origin_1" ((fun x => x) sampleOrigin) ∧
      (updateOrigin true ⟨[sampleOrigin], none⟩ "origin_1" (fun x => x)).2.file =
        (if true then (none : Option (List ManagedOrigin))
         else some (replaceFirstById [sampleOrigin] "origin_1" ((fun x => x) sampleOrigin))))) :=
  ⟨by decide, by decide,
    registry_write_ordering_amended true ⟨[sampleOrigin], none⟩ sampleOrigin sampleOrigin
      "origin_1" 0 (fun x => x) (by decide) (by decide)⟩

end SecX
